import Mathlib

/-!
Shallow embedding of `frontend/rust-lib/flowy-storage/src/lib.rs` (AppFlowy).

The file models the object-identity derivation (`object_from_disk`), the
`StorageObject` / `ObjectValueSupabase` value wrappers and their methods
(`mime_type`, `file_size`, `from_file`, `from_bytes`).  The surrounding
filesystem is modelled as a partial map from path strings to byte contents;
a `none` entry means the path cannot be opened / read.  Rust functions that
can panic are given an outcome type with a dedicated `panicked` constructor,
so that a typed `Result::Err` return and a panic are distinguishable.
-/

namespace FlowyStorage

/-- Outcome of running a Rust function: a normal return, a typed error
return (Rust `Err`), or a panic. -/
inductive RustOutcome (ε α : Type) where
  | ok (a : α)
  | err (e : ε)
  | panicked (msg : String)
  deriving DecidableEq

/-- True exactly on a normal (`Ok`) return. -/
def RustOutcome.isOk : RustOutcome ε α → Bool
  | .ok _ => true
  | _ => false

/-- True exactly on a typed error (`Err`) return. -/
def RustOutcome.isErr : RustOutcome ε α → Bool
  | .err _ => true
  | _ => false

/-- True exactly on a panic. -/
def RustOutcome.isPanic : RustOutcome ε α → Bool
  | .panicked _ => true
  | _ => false

/-- Modelled from the spec: the `flowy_error` crate (the `FlowyError` type and
its `From<std::io::Error>` conversion used by the `?` operator) is not under
`src/`; the spec says a failed read "fails with an I/O error kind", so the
model carries an error-kind tag with a dedicated I/O kind. -/
inductive FlowyErrorKind where
  | io
  | other
  deriving DecidableEq

/-- Modelled from the spec: typed error value carried by fallible operations. -/
structure FlowyError where
  kind : FlowyErrorKind
  deriving DecidableEq

/-- Model of the filesystem seen by the code: a path maps to the byte
content of a regular readable file there, or to `none` when opening or
fully reading the path fails. -/
abbrev FileSystem := String → Option (List Nat)

/-- Models `std::path`: split a path string at every `/` character. -/
def splitOnSlash : List Char → List (List Char)
  | [] => [[]]
  | c :: rest =>
    let r := splitOnSlash rest
    if c = '/' then [] :: r
    else
      match r with
      | [] => [[c]]
      | g :: gs => (c :: g) :: gs

/-- Models `std::path::Path::components` for Unix path strings: empty
segments and `.` segments are normalized away. -/
def pathComponents (path : String) : List String :=
  ((splitOnSlash path.data).map (fun g => String.mk g)).filter
    (fun c => !(c == "") && !(c == "."))

/-- Models `std::path::Path::file_name`: the final normal component of the
path; `none` when the path is empty, a root, or ends in `..`. -/
def rustFileName (path : String) : Option String :=
  match (pathComponents path).getLast? with
  | none => none
  | some c => if c = ".." then none else some c

/-- Models `std::path::Path::extension` applied to a file name: the portion
after the final `.`, or `none` when there is no `.` or the only `.` begins
the name. -/
def extOfFileName (name : String) : Option String :=
  match (name.data.reverse).dropWhile (fun c => c != '.') with
  | [] => none
  | _ :: before =>
    if before = [] then none
    else some (String.mk (((name.data.reverse).takeWhile (fun c => c != '.')).reverse))

/-- Models `std::path::Path::extension` on a path string. -/
def rustExtension (path : String) : Option String :=
  (rustFileName path).bind extOfFileName

/-- ASCII-lowercase every character of a string. -/
def asciiLower (s : String) : String :=
  String.mk (s.data.map Char.toLower)

/-- Models the `mime_guess` crate's extension-to-media-type table (an
external collaborator of the code; only entries relevant to the spec plus
common entries are listed — lookups are case-insensitive in the crate and
unlisted extensions fall through to the caller-chosen fallback). -/
def mimeTable : List (String × String) :=
  [("pdf", "application/pdf"), ("txt", "text/plain"), ("png", "image/png"),
   ("jpg", "image/jpeg"), ("jpeg", "image/jpeg"), ("gif", "image/gif"),
   ("html", "text/html"), ("htm", "text/html"), ("json", "application/json"),
   ("zip", "application/zip"), ("mp4", "video/mp4"), ("md", "text/markdown"),
   ("csv", "text/csv"), ("svg", "image/svg+xml")]

/-- Models `mime_guess::from_path(path).first_or_octet_stream()`: guess the
media type from the path's extension, falling back to
`application/octet-stream` when the extension is absent or unrecognized. -/
def mimeFromPath (path : String) : String :=
  match rustExtension path with
  | none => "application/octet-stream"
  | some e =>
    match mimeTable.lookup (asciiLower e) with
    | some m => m
    | none => "application/octet-stream"

/-- Multiplicative seed of the `fxhash` crate (64-bit). -/
def fxSeed : Nat := 0x517cc1b727220a95

/-- Rotate a 64-bit value left by 5 bits, as `u64::rotate_left(5)`. -/
def rotl5 (x : Nat) : Nat :=
  ((x % 2 ^ 64) * 2 ^ 5 + (x % 2 ^ 64) / 2 ^ 59) % 2 ^ 64

/-- One step of the `fxhash` state update:
`hash = (hash.rotate_left(5) ^ word).wrapping_mul(SEED)` on 64 bits. -/
def hashWord (h w : Nat) : Nat :=
  ((rotl5 h) ^^^ (w % 2 ^ 64)) * fxSeed % 2 ^ 64

/-- Little-endian value of a byte list, as `NativeEndian::read_u64` and
friends on a little-endian target. -/
def readLE (bytes : List Nat) : Nat :=
  bytes.foldr (fun b acc => b % 256 + 256 * acc) 0

/-- Models `fxhash`'s `write64` byte loop (fuel-based so that it reduces in
the kernel; the fuel is always sufficient): consume 8-byte chunks, then an
optional 4-byte, 2-byte and 1-byte tail, feeding each into `hashWord`. -/
def write64Aux : Nat → Nat → List Nat → Nat
  | 0, h, _ => h
  | fuel + 1, h, bytes =>
    if 8 ≤ bytes.length then
      write64Aux fuel (hashWord h (readLE (bytes.take 8))) (bytes.drop 8)
    else
      let p4 := if 4 ≤ bytes.length then
          (hashWord h (readLE (bytes.take 4)), bytes.drop 4)
        else (h, bytes)
      let p2 := if 2 ≤ p4.2.length then
          (hashWord p4.1 (readLE (p4.2.take 2)), p4.2.drop 2)
        else p4
      match p2.2 with
      | [] => p2.1
      | b :: _ => hashWord p2.1 (b % 256)

/-- Models `fxhash`'s `write64` on a whole byte list. -/
def write64 (h : Nat) (bytes : List Nat) : Nat :=
  write64Aux (bytes.length + 1) h bytes

/-- Models `fxhash::hash(&content)` for `content : Vec<u8>` on a 64-bit
little-endian target: the standard `Hash` impl for byte slices feeds the
length prefix (`write_usize`) and then the raw bytes into the hasher. -/
def fxhash (content : List Nat) : Nat :=
  write64 (hashWord 0 content.length) content

/-- Decimal digit character for `d % 10`. -/
def decDigitChar (d : Nat) : Char :=
  Char.ofNat (48 + d % 10)

/-- Fuel-based most-significant-first decimal digit accumulation, modelling
the `Display` rendering of an unsigned integer. -/
def natDecAux : Nat → Nat → List Char → List Char
  | 0, _, acc => acc
  | fuel + 1, n, acc =>
    if n < 10 then decDigitChar n :: acc
    else natDecAux fuel (n / 10) (decDigitChar (n % 10) :: acc)

/-- Models `usize::to_string()`: decimal rendering, no sign or prefix. -/
def natToDecimal (n : Nat) : String :=
  String.mk (natDecAux (n + 1) n [])

/-- Embeds `ObjectIdentity` from the source. -/
structure ObjectIdentity where
  workspace_id : String
  file_id : String
  ext : String
  deriving DecidableEq

/-- Embeds `ObjectValue` from the source (`Bytes` raw payload modelled as a
byte list, `Mime` modelled as its string rendering). -/
structure ObjectValue where
  raw : List Nat
  mime : String
  deriving DecidableEq

/-- Embeds `object_from_disk` (the `not(target_arch = "wasm32")` version):
extract the extension (empty if absent), open and fully read the file
(`?` propagates an I/O-kind error on failure), guess the MIME type from the
path, hash the content with `fxhash` and render it in decimal as `file_id`. -/
def object_from_disk (fs : FileSystem) (workspace_id local_file_path : String) :
    RustOutcome FlowyError (ObjectIdentity × ObjectValue) :=
  let ext := (rustExtension local_file_path).getD ""
  match fs local_file_path with
  | none => .err ⟨.io⟩
  | some content =>
    let mime := mimeFromPath local_file_path
    let hash := fxhash content
    .ok (⟨workspace_id, natToDecimal hash, ext⟩, ⟨content, mime⟩)

/-- Embeds the `target_arch = "wasm32"` version of `object_from_disk`, whose
body is `todo!("object_from_disk is not implemented for wasm32")`: it panics
on every input. -/
def object_from_disk_wasm32 (workspace_id local_file_path : String) :
    RustOutcome FlowyError (ObjectIdentity × ObjectValue) :=
  .panicked "object_from_disk is not implemented for wasm32"

/-- Embeds the `ObjectValueSupabase` enum from the source. -/
inductive ObjectValueSupabase where
  | File (file_path : String)
  | Bytes (bytes : List Nat) (mime : String)
  deriving DecidableEq

/-- Embeds `ObjectValueSupabase::mime_type`: guess from the path for the
`File` variant, return the declared string for the `Bytes` variant. -/
def ObjectValueSupabase.mime_type : ObjectValueSupabase → String
  | .File file_path => mimeFromPath file_path
  | .Bytes _ mime => mime

/-- Embeds the `StorageObject` struct from the source. -/
structure StorageObject where
  workspace_id : String
  file_name : String
  value : ObjectValueSupabase
  deriving DecidableEq

/-- Embeds `StorageObject::from_file`. -/
def StorageObject.from_file (workspace_id file_name file_path : String) :
    StorageObject :=
  ⟨workspace_id, file_name, .File file_path⟩

/-- Embeds `StorageObject::from_bytes`. -/
def StorageObject.from_bytes (workspace_id file_name : String)
    (bytes : List Nat) (mime : String) : StorageObject :=
  ⟨workspace_id, file_name, .Bytes bytes mime⟩

/-- Embeds `StorageObject::file_size`:
`std::fs::metadata(file_path).unwrap().len()` for the `File` variant — the
`unwrap` panics when the metadata query fails (e.g. the file vanished) —
and the in-memory byte count for the `Bytes` variant.  The Rust signature
returns a bare `u64`, so no typed error can be returned. -/
def StorageObject.file_size (obj : StorageObject) (fs : FileSystem) :
    RustOutcome FlowyError Nat :=
  match obj.value with
  | .File file_path =>
    match fs file_path with
    | none => .panicked "called Result::unwrap() on an Err value"
    | some content => .ok content.length
  | .Bytes bytes _ => .ok bytes.length

end FlowyStorage

namespace FlowyStorage

/-! Helper lemmas about decimal rendering and the MIME table. -/

/-- A character produced by `decDigitChar` is an ASCII decimal digit. -/
theorem decDigitChar_isDigit (d : Nat) : (decDigitChar d).isDigit = true := by
  have h : d % 10 < 10 := Nat.mod_lt _ (by norm_num)
  unfold decDigitChar
  generalize d % 10 = k at h ⊢
  interval_cases k <;> decide

/-- Every character accumulated by `natDecAux` over a digit accumulator is a
digit. -/
theorem natDecAux_digits (fuel : Nat) : ∀ (n : Nat) (acc : List Char),
    (∀ c ∈ acc, c.isDigit = true) → ∀ c ∈ natDecAux fuel n acc, c.isDigit = true := by
  induction fuel with
  | zero => intro n acc hacc c hc; exact hacc c hc
  | succ fuel ih =>
    intro n acc hacc c hc
    simp only [natDecAux] at hc
    by_cases hn : n < 10
    · simp only [if_pos hn, List.mem_cons] at hc
      rcases hc with hc | hc
      · subst hc; exact decDigitChar_isDigit n
      · exact hacc c hc
    · simp only [if_neg hn] at hc
      refine ih (n / 10) _ ?_ c hc
      intro c' hc'
      rcases List.mem_cons.mp hc' with h | h
      · subst h; exact decDigitChar_isDigit _
      · exact hacc c' h

/-- `natDecAux` never shrinks a nonempty accumulator to the empty list. -/
theorem natDecAux_ne_nil (fuel : Nat) : ∀ (n : Nat) (acc : List Char),
    acc ≠ [] → natDecAux fuel n acc ≠ [] := by
  induction fuel with
  | zero => intro n acc h; simpa [natDecAux] using h
  | succ fuel ih =>
    intro n acc h
    simp only [natDecAux]
    by_cases hn : n < 10
    · simp [if_pos hn]
    · simp only [if_neg hn]
      exact ih (n / 10) _ (by simp)

/-- The decimal rendering of a natural number is never the empty string. -/
theorem natToDecimal_ne_empty (n : Nat) : natToDecimal n ≠ "" := by
  have h : natDecAux (n + 1) n [] ≠ [] := by
    simp only [natDecAux]
    by_cases hn : n < 10
    · simp [if_pos hn]
    · simp only [if_neg hn]
      exact natDecAux_ne_nil n (n / 10) _ (by simp)
  intro hcontra
  exact h (by simpa [natToDecimal] using congrArg String.data hcontra)

/-- Every character of the decimal rendering of a natural number is an ASCII
decimal digit. -/
theorem natToDecimal_digits (n : Nat) :
    ∀ c ∈ (natToDecimal n).data, c.isDigit = true := by
  intro c hc
  exact natDecAux_digits (n + 1) n [] (by simp) c (by simpa [natToDecimal] using hc)

/-- A successful lookup in an association list whose values are all nonempty
returns a nonempty value. -/
theorem lookup_snd_ne_empty : ∀ (l : List (String × String)),
    (∀ pr ∈ l, pr.2 ≠ "") → ∀ k v : String, l.lookup k = some v → v ≠ "" := by
  intro l
  induction l with
  | nil => intro _ k v h; simp [List.lookup] at h
  | cons a l ih =>
    intro hl k v h
    obtain ⟨k1, v1⟩ := a
    rw [List.lookup] at h
    by_cases hk : (k == k1) = true
    · rw [hk] at h
      simp only [Option.some.injEq] at h
      subst h
      exact hl (k1, v1) (by simp)
    · rw [Bool.not_eq_true] at hk
      rw [hk] at h
      exact ih (fun pr hpr => hl pr (List.mem_cons_of_mem _ hpr)) k v h

/-- The MIME guess for any path is a nonempty string: either a table entry
(all of which are nonempty) or the `application/octet-stream` fallback. -/
theorem mimeFromPath_ne_empty (p : String) : mimeFromPath p ≠ "" := by
  rw [mimeFromPath]
  split
  · decide
  · split
    · rename_i m hm
      exact lookup_snd_ne_empty mimeTable (by decide) _ m hm
    · decide

end FlowyStorage

namespace FlowyStorage

/-! Claim theorems. -/

/-- C1: for every workspace id and readable regular file at a path,
`object_from_disk` returns an identity/value pair where `ext` is the path's
extension (empty string if absent), the file's entire byte content is read
into `ObjectValue.raw`, `ObjectValue.mime` is classified from the path's
extension falling back to `application/octet-stream` when unrecognized, and
`file_id` is the decimal string rendering of the `fxhash` of the full byte
content; in particular a file `report.pdf` has `ext = "pdf"` and
`mime = application/pdf`. -/
theorem c1_object_from_disk_derivation (fs : FileSystem) (ws path : String)
    (content : List Nat) (h : fs path = some content) :
    object_from_disk fs ws path =
      .ok (⟨ws, natToDecimal (fxhash content), (rustExtension path).getD ""⟩,
        ⟨content, mimeFromPath path⟩) ∧
    rustExtension "report.pdf" = some "pdf" ∧
    mimeFromPath "report.pdf" = "application/pdf" := by
  refine ⟨?_, by decide, by decide⟩
  simp only [object_from_disk, h]

/-- Filesystem holding a single 1024-byte file at `report.pdf`. -/
def fsReportPdf : FileSystem := fun p =>
  if p = "report.pdf" then some (List.replicate 1024 65) else none

set_option maxRecDepth 8192 in
/-- Witness for C1 at the spec's concrete scenario: `report.pdf` holding
1024 bytes. -/
theorem c1_witness_report_pdf :
    fsReportPdf "report.pdf" = some (List.replicate 1024 65) ∧
    (object_from_disk fsReportPdf "ws" "report.pdf" =
        .ok (⟨"ws", natToDecimal (fxhash (List.replicate 1024 65)),
          (rustExtension "report.pdf").getD ""⟩,
          ⟨List.replicate 1024 65, mimeFromPath "report.pdf"⟩) ∧
      rustExtension "report.pdf" = some "pdf" ∧
      mimeFromPath "report.pdf" = "application/pdf") :=
  ⟨by decide,
    c1_object_from_disk_derivation fsReportPdf "ws" "report.pdf"
      (List.replicate 1024 65) (by decide)⟩

/-- C2: two invocations of `object_from_disk` on files with identical byte
content — under any workspace ids, paths and extensions — produce equal
`file_id` strings (the hash input is the content only), while the `ext`
fields are determined by the respective paths and so may differ. -/
theorem c2_file_id_pure_function_of_content (fs1 fs2 : FileSystem)
    (ws1 ws2 p1 p2 : String) (content : List Nat)
    (h1 : fs1 p1 = some content) (h2 : fs2 p2 = some content)
    (id1 id2 : ObjectIdentity) (v1 v2 : ObjectValue)
    (e1 : object_from_disk fs1 ws1 p1 = .ok (id1, v1))
    (e2 : object_from_disk fs2 ws2 p2 = .ok (id2, v2)) :
    id1.file_id = id2.file_id ∧
    id1.ext = (rustExtension p1).getD "" ∧
    id2.ext = (rustExtension p2).getD "" := by
  simp only [object_from_disk, h1, RustOutcome.ok.injEq, Prod.mk.injEq] at e1
  simp only [object_from_disk, h2, RustOutcome.ok.injEq, Prod.mk.injEq] at e2
  obtain ⟨hi1, -⟩ := e1
  obtain ⟨hi2, -⟩ := e2
  subst hi1
  subst hi2
  exact ⟨rfl, rfl, rfl⟩

/-- Filesystem holding the same three bytes under two different names. -/
def fsTwoPaths : FileSystem := fun p =>
  if p = "a.txt" then some [1, 2, 3]
  else if p = "b.pdf" then some [1, 2, 3] else none

/-- Witness for C2: the same content under `a.txt` and `b.pdf`, in two
different workspaces, yields equal `file_id` and path-determined `ext`. -/
theorem c2_witness_two_paths :
    (⟨"w1", natToDecimal (fxhash [1, 2, 3]), "txt"⟩ : ObjectIdentity).file_id =
      (⟨"w2", natToDecimal (fxhash [1, 2, 3]), "pdf"⟩ : ObjectIdentity).file_id ∧
    (⟨"w1", natToDecimal (fxhash [1, 2, 3]), "txt"⟩ : ObjectIdentity).ext =
      (rustExtension "a.txt").getD "" ∧
    (⟨"w2", natToDecimal (fxhash [1, 2, 3]), "pdf"⟩ : ObjectIdentity).ext =
      (rustExtension "b.pdf").getD "" :=
  c2_file_id_pure_function_of_content fsTwoPaths fsTwoPaths "w1" "w2"
    "a.txt" "b.pdf" [1, 2, 3] (by decide) (by decide)
    ⟨"w1", natToDecimal (fxhash [1, 2, 3]), "txt"⟩
    ⟨"w2", natToDecimal (fxhash [1, 2, 3]), "pdf"⟩
    ⟨[1, 2, 3], "text/plain"⟩ ⟨[1, 2, 3], "application/pdf"⟩
    (by decide) (by decide)

/-- C3 counterexample: with a vanished file, `file_size` on a `File`-variant
object does not return a typed failure result — it panics (the source
unwraps the `std::fs::metadata` result, and its signature returns a bare
`u64`), so the claim that the failure propagates to the caller as a typed
result, not aborting, is false. -/
theorem c3_counterexample_unwrap_panics :
    ((StorageObject.from_file "ws" "n" "/gone").file_size
      (fun _ => none)).isErr = false ∧
    ((StorageObject.from_file "ws" "n" "/gone").file_size
      (fun _ => none)).isPanic = true := by
  decide

/-- C3 amended: `file_size()` queries on-disk metadata for the `File`
variant and panics (aborts via `unwrap`, rather than returning a typed
failure) if the file has vanished; it returns the on-disk length when the
file exists and the in-memory byte length for the `Bytes` variant. -/
theorem c3_amended_file_size_behaviour (fs : FileSystem)
    (ws name path : String) (bytes : List Nat) (m : String) :
    (fs path = none →
      (StorageObject.from_file ws name path).file_size fs =
        .panicked "called Result::unwrap() on an Err value") ∧
    (∀ content, fs path = some content →
      (StorageObject.from_file ws name path).file_size fs = .ok content.length) ∧
    (StorageObject.from_bytes ws name bytes m).file_size fs = .ok bytes.length := by
  refine ⟨fun h => ?_, fun content h => ?_, ?_⟩
  · simp [StorageObject.file_size, StorageObject.from_file, h]
  · simp [StorageObject.file_size, StorageObject.from_file, h]
  · simp [StorageObject.file_size, StorageObject.from_bytes]

/-- Witness for the amended C3: a vanished file makes `file_size` panic. -/
theorem c3_witness_vanished_file :
    (StorageObject.from_file "ws" "n" "/gone").file_size (fun _ => none) =
      .panicked "called Result::unwrap() on an Err value" :=
  (c3_amended_file_size_behaviour (fun _ => none) "ws" "n" "/gone" [] "").1 rfl

/-- C4: `object_from_disk` fails with an I/O-kind error and produces no
identity/value when the path does not reference an openable, fully readable
file; it succeeds exactly when opening and reading to end-of-stream
succeed. -/
theorem c4_io_error_on_unreadable_path (fs : FileSystem) (ws path : String) :
    (fs path = none → object_from_disk fs ws path = .err ⟨.io⟩) ∧
    ((object_from_disk fs ws path).isOk = true ↔ ∃ content, fs path = some content) := by
  refine ⟨fun h => ?_, ?_, ?_⟩
  · simp only [object_from_disk, h]
  · intro h
    cases hfs : fs path with
    | none => simp [object_from_disk, hfs, RustOutcome.isOk] at h
    | some c => exact ⟨c, rfl⟩
  · rintro ⟨c, hc⟩
    simp [object_from_disk, hc, RustOutcome.isOk]

/-- Witness for C4: a filesystem with no readable files yields the typed
I/O error on a missing path. -/
theorem c4_witness_missing_path :
    object_from_disk (fun _ => none) "ws" "missing.bin" = .err ⟨.io⟩ :=
  (c4_io_error_on_unreadable_path (fun _ => none) "ws" "missing.bin").1 rfl

/-- C5: `mime_type()` on a `Bytes` variant returns exactly the declared MIME
string; on a `File` variant it returns the guess from the path's extension,
defaulting to `application/octet-stream` when the extension is unrecognized,
as for `a.xyz123`. -/
theorem c5_mime_type_variants (bytes : List Nat) (m p : String) :
    (ObjectValueSupabase.Bytes bytes m).mime_type = m ∧
    (ObjectValueSupabase.File p).mime_type = mimeFromPath p ∧
    ((rustExtension p).bind (fun e => mimeTable.lookup (asciiLower e)) = none →
      (ObjectValueSupabase.File p).mime_type = "application/octet-stream") ∧
    (ObjectValueSupabase.File "a.xyz123").mime_type = "application/octet-stream" := by
  refine ⟨rfl, rfl, fun h => ?_, by decide⟩
  simp only [ObjectValueSupabase.mime_type, mimeFromPath]
  split
  · rfl
  · rename_i e he
    rw [he, Option.some_bind] at h
    split
    · rename_i m hm
      rw [hm] at h
      exact absurd h (by simp)
    · rfl

/-- Witness for C5: the unknown extension `xyz123` misses the table and
falls back to the generic binary type. -/
theorem c5_witness_unknown_extension :
    (rustExtension "b.xyz123").bind (fun e => mimeTable.lookup (asciiLower e)) = none ∧
    (ObjectValueSupabase.File "b.xyz123").mime_type = "application/octet-stream" :=
  ⟨by decide, (c5_mime_type_variants [] "" "b.xyz123").2.2.1 (by decide)⟩

end FlowyStorage

namespace FlowyStorage

/-- C6: `StorageObject::from_bytes("ws1", "note.txt", b"hello",
"text/plain")` yields `file_size() == 5` and `mime_type() == "text/plain"`;
generally, `from_bytes` exposes `file_size()` equal to the in-memory byte
count and `from_file` with a valid path exposes `file_size()` equal to the
on-disk length. -/
theorem c6_file_size_scenarios (fs : FileSystem) (ws name path : String)
    (content bytes : List Nat) (m : String) (h : fs path = some content) :
    ((StorageObject.from_bytes "ws1" "note.txt" [104, 101, 108, 108, 111]
        "text/plain").file_size fs = .ok 5 ∧
      (StorageObject.from_bytes "ws1" "note.txt" [104, 101, 108, 108, 111]
        "text/plain").value.mime_type = "text/plain") ∧
    (StorageObject.from_bytes ws name bytes m).file_size fs = .ok bytes.length ∧
    (StorageObject.from_file ws name path).file_size fs = .ok content.length := by
  refine ⟨⟨rfl, rfl⟩, rfl, ?_⟩
  simp [StorageObject.file_size, StorageObject.from_file, h]

/-- Filesystem holding a two-byte file at `/tmp/data.bin`. -/
def fsDataBin : FileSystem := fun p =>
  if p = "/tmp/data.bin" then some [7, 7] else none

/-- Witness for C6: the `note.txt`/`hello` scenario together with an
existing on-disk file of length two. -/
theorem c6_witness_note_txt :
    ((StorageObject.from_bytes "ws1" "note.txt" [104, 101, 108, 108, 111]
        "text/plain").file_size fsDataBin = .ok 5 ∧
      (StorageObject.from_bytes "ws1" "note.txt" [104, 101, 108, 108, 111]
        "text/plain").value.mime_type = "text/plain") ∧
    (StorageObject.from_bytes "w" "n" ([] : List Nat) "").file_size fsDataBin =
      .ok ([] : List Nat).length ∧
    (StorageObject.from_file "w" "n" "/tmp/data.bin").file_size fsDataBin =
      .ok [7, 7].length :=
  c6_file_size_scenarios fsDataBin "w" "n" "/tmp/data.bin" [7, 7] [] ""
    (by decide)

/-- C7: on the wasm32 target, `object_from_disk` is unimplemented
(`todo!`): it panics on every input, never returns `Ok`, and in particular
never silently returns an identity/value pair with empty data. -/
theorem c7_wasm32_fails_fast (ws p : String) :
    object_from_disk_wasm32 ws p =
      .panicked "object_from_disk is not implemented for wasm32" ∧
    (object_from_disk_wasm32 ws p).isOk = false :=
  ⟨rfl, rfl⟩

/-- C8: `from_file` and `from_bytes` are total constructors performing no
I/O and no validation — they always return the record built from their
arguments, independent of any filesystem state — and a nonexistent path is
only detected later, when `file_size()` is called on the resulting
`File`-variant object (where it panics). -/
theorem c8_constructors_total_no_io (ws name path : String)
    (bytes : List Nat) (m : String) (fs : FileSystem) :
    StorageObject.from_file ws name path =
      ⟨ws, name, .File path⟩ ∧
    StorageObject.from_bytes ws name bytes m =
      ⟨ws, name, .Bytes bytes m⟩ ∧
    (fs path = none →
      (StorageObject.from_file ws name path).file_size fs =
        .panicked "called Result::unwrap() on an Err value") := by
  refine ⟨rfl, rfl, fun h => ?_⟩
  simp [StorageObject.file_size, StorageObject.from_file, h]

/-- Witness for C8: constructing an object over a nonexistent path succeeds
and only the later `file_size` call panics. -/
theorem c8_witness_lazy_detection :
    StorageObject.from_file "ws" "doc" "/does/not/exist" =
      ⟨"ws", "doc", .File "/does/not/exist"⟩ ∧
    StorageObject.from_bytes "ws" "doc" [9] "x/y" =
      ⟨"ws", "doc", .Bytes [9] "x/y"⟩ ∧
    (StorageObject.from_file "ws" "doc" "/does/not/exist").file_size
        (fun _ => none) =
      .panicked "called Result::unwrap() on an Err value" :=
  ⟨(c8_constructors_total_no_io "ws" "doc" "/does/not/exist" [9] "x/y"
      (fun _ => none)).1,
    (c8_constructors_total_no_io "ws" "doc" "/does/not/exist" [9] "x/y"
      (fun _ => none)).2.1,
    (c8_constructors_total_no_io "ws" "doc" "/does/not/exist" [9] "x/y"
      (fun _ => none)).2.2 rfl⟩

/-- C9: `mime_type()` is a total pure function of the stored strings: it
takes no filesystem, never fails, returns the extension-based guess for the
`File` variant — never the empty string, thanks to the octet-stream
fallback — and the declared string for the `Bytes` variant. -/
theorem c9_mime_type_total_pure (p : String) (bytes : List Nat) (m : String) :
    (ObjectValueSupabase.File p).mime_type = mimeFromPath p ∧
    (ObjectValueSupabase.File p).mime_type ≠ "" ∧
    (ObjectValueSupabase.Bytes bytes m).mime_type = m :=
  ⟨rfl, mimeFromPath_ne_empty p, rfl⟩

/-- C10: every successful `object_from_disk` call returns a `file_id` that
is a nonempty string of ASCII decimal digits with no sign or prefix. -/
theorem c10_file_id_decimal_digits (fs : FileSystem) (ws path : String)
    (idv : ObjectIdentity × ObjectValue)
    (h : object_from_disk fs ws path = .ok idv) :
    idv.1.file_id ≠ "" ∧ ∀ c ∈ idv.1.file_id.data, c.isDigit = true := by
  cases hfs : fs path with
  | none => simp [object_from_disk, hfs] at h
  | some content =>
    simp only [object_from_disk, hfs] at h
    injection h with h
    subst h
    exact ⟨natToDecimal_ne_empty _, natToDecimal_digits _⟩

/-- Identity/value pair produced from a one-byte file. -/
def idvOfFive : ObjectIdentity × ObjectValue :=
  (⟨"w", natToDecimal (fxhash [5]), ""⟩, ⟨[5], "application/octet-stream"⟩)

/-- Witness for C10 on a concrete one-byte file at an extensionless path. -/
theorem c10_witness_digits :
    idvOfFive.1.file_id ≠ "" ∧ ∀ c ∈ idvOfFive.1.file_id.data, c.isDigit = true :=
  c10_file_id_decimal_digits (fun _ => some [5]) "w" "f" idvOfFive (by decide)

end FlowyStorage
